import Mathlib

/-!
Verification of the GeoFence geofence geometry and containment engine.

This file embeds, as Lean definitions, the core of the repository:
the geofence data model (`backend/models/Geofence.js`), the geometry
normalizer (the schema's pre-save hook), the containment evaluator
(`containsPoint`, `calculateDistance`, `pointInPolygon`), and the
relevant Express route handlers (`routes/geofences.js`: create, update
and check-point), and proves or refutes the specification's claims
about them.

Numbers: JavaScript numbers are modelled as rationals (`ℚ`) for the
stored fields and algebraic computations, and as reals (`ℝ`) for the
trigonometric haversine distance.  JavaScript truthiness of a number
(`0` and `undefined` are falsy) is modelled by `jsNumTruthy`.
-/

namespace GeoFence

/-- A coordinate as stored in `geofenceSchema.coordinates`:
a `{lat, lng}` pair. -/
structure Coord where
  lat : ℚ
  lng : ℚ
deriving DecidableEq

/-- The `type` field of a geofence: `enum: ['polygon', 'circle', 'rectangle']`. -/
inductive ShapeType where
  | polygon
  | circle
  | rectangle
deriving DecidableEq

/-- The GeoJSON `geometry` field: `{type: 'Point'|'Polygon', coordinates}`.
A `Point` holds a `[lng, lat]` coordinate list whose entries may be
`undefined` (modelled as `none`) — the pre-save hook writes
`[this.center.lng, this.center.lat]` even when those sub-paths are unset —
and the Mongoose default is `{type: 'Point', coordinates: []}`; a
`Polygon` holds a list of rings of `[lng, lat]` pairs. -/
inductive Geometry where
  | point : List (Option ℚ) → Geometry
  | polygon : List (List (ℚ × ℚ)) → Geometry
deriving DecidableEq

/-- The Mongoose default geometry `{type: 'Point', coordinates: []}`. -/
def defaultGeometry : Geometry := Geometry.point []

/-- The geofence document (`geofenceSchema`), with the schema defaults. -/
structure Geofence where
  name : String
  description : Option String := none
  coordinates : List Coord := []
  geometry : Geometry := defaultGeometry
  type : ShapeType := ShapeType.polygon
  center : Option Coord := none
  radius : Option ℚ := none
  color : String := "#FF0000"
  fillColor : String := "#FF0000"
  fillOpacity : ℚ := 3 / 10
  strokeWeight : ℚ := 2
  isActive : Bool := true
  createdBy : Nat
  tags : List String := []
deriving DecidableEq

/-- JavaScript truthiness of an optional number: `undefined` and `0`
are falsy, every other number is truthy. -/
def jsNumTruthy : Option ℚ → Bool
  | none => false
  | some r => decide (r ≠ 0)

/-- JavaScript truthiness of an optional string: `undefined` and the
empty string are falsy. -/
def jsStrTruthy : Option String → Bool
  | none => false
  | some s => decide (s ≠ "")

/-- `l[l.length - 1]` on a non-empty list (`d` is returned for `[]`,
which the source never hits). -/
def lastD {α : Type} : List α → α → α
  | [], d => d
  | x :: xs, _ => lastD xs x

/-! ### Containment evaluator (`Geofence.js` lines 149-184) -/

/-- The crossing test of one edge `(vi, vj)` inside the `pointInPolygon`
loop: `((coordinates[i].lat > lat) !== (coordinates[j].lat > lat)) &&
(lng < (coordinates[j].lng - coordinates[i].lng) * (lat - coordinates[i].lat)
/ (coordinates[j].lat - coordinates[i].lat) + coordinates[i].lng)`. -/
def edgeCrosses (lat lng : ℚ) (vi vj : Coord) : Bool :=
  (decide (vi.lat > lat) != decide (vj.lat > lat)) &&
    decide (lng < (vj.lng - vi.lng) * (lat - vi.lat) / (vj.lat - vi.lat) + vi.lng)

/-- The edge list traversed by the `pointInPolygon` loop
`for (let i = 0, j = coordinates.length - 1; i < coordinates.length; j = i++)`:
each vertex paired with the predecessor index `j`, threaded from the seed
`pred` (the loop seeds `j` with the last index). -/
def edgesAux (pred : Coord) : List Coord → List (Coord × Coord)
  | [] => []
  | x :: xs => (x, pred) :: edgesAux x xs

/-- All `(coordinates[i], coordinates[j])` pairs visited by the loop:
`j` starts at the last index and then trails `i` by one. -/
def polygonEdges : List Coord → List (Coord × Coord)
  | [] => []
  | c :: cs => edgesAux (lastD cs c) (c :: cs)

/-- `geofenceSchema.methods.pointInPolygon`: the even-odd ray-casting
loop; each crossing edge toggles the `inside` flag, initially `false`. -/
def pointInPolygon (lat lng : ℚ) (coordinates : List Coord) : Bool :=
  (polygonEdges coordinates).foldl
    (fun inside e => if edgeCrosses lat lng e.1 e.2 then !inside else inside) false

/-- `Math.atan2` on the reals (the piecewise definition JavaScript
implements; only the `x > 0` branch is exercised by the haversine use). -/
noncomputable def atan2 (y x : ℝ) : ℝ :=
  if 0 < x then Real.arctan (y / x)
  else if x < 0 ∧ 0 ≤ y then Real.arctan (y / x) + Real.pi
  else if x < 0 ∧ y < 0 then Real.arctan (y / x) - Real.pi
  else if x = 0 ∧ 0 < y then Real.pi / 2
  else if x = 0 ∧ y < 0 then -(Real.pi / 2)
  else 0

/-- `geofenceSchema.methods.calculateDistance`: the haversine great-circle
distance on a sphere of radius `6371000` meters, degrees converted to
radians by `* Math.PI / 180`. -/
noncomputable def calculateDistance (lat1 lng1 lat2 lng2 : ℝ) : ℝ :=
  let R : ℝ := 6371000
  let dLat := (lat2 - lat1) * Real.pi / 180
  let dLng := (lng2 - lng1) * Real.pi / 180
  let a := Real.sin (dLat / 2) * Real.sin (dLat / 2) +
    Real.cos (lat1 * Real.pi / 180) * Real.cos (lat2 * Real.pi / 180) *
      Real.sin (dLng / 2) * Real.sin (dLng / 2)
  let c := 2 * atan2 (Real.sqrt a) (Real.sqrt (1 - a))
  R * c

/-- The circle branch of `containsPoint`:
`calculateDistance(lat, lng, this.center.lat, this.center.lng) <= this.radius`. -/
def circleCond (g : Geofence) (lat lng : ℚ) : Prop :=
  match g.center, g.radius with
  | some c, some r =>
      calculateDistance (lat : ℝ) (lng : ℝ) (c.lat : ℝ) (c.lng : ℝ) ≤ (r : ℝ)
  | _, _ => False

/-- `geofenceSchema.methods.containsPoint`: dispatches on the `type`
field with JavaScript truthiness guards (`this.center`, `this.radius`),
falling through to `false`.  A total function: no branch can throw. -/
def containsPoint (g : Geofence) (lat lng : ℚ) : Prop :=
  if g.type = ShapeType.circle ∧ g.center.isSome = true ∧ jsNumTruthy g.radius = true then
    circleCond g lat lng
  else if g.type = ShapeType.polygon ∧ 3 ≤ g.coordinates.length then
    pointInPolygon lat lng g.coordinates = true
  else False

/-! ### Geometry normalizer (`geofenceSchema.pre('save')`, lines 104-141) -/

/-- `this.coordinates.map(coord => [coord.lng, coord.lat])`. -/
def toGeoPairs (coords : List Coord) : List (ℚ × ℚ) :=
  coords.map (fun c => (c.lng, c.lat))

/-- The ring-closing step of the pre-save hook: if the first and last
`[lng, lat]` pairs differ in either component, push a copy of the first
pair. -/
def closeRing (geoCoords : List (ℚ × ℚ)) : List (ℚ × ℚ) :=
  match geoCoords with
  | [] => []
  | first :: rest =>
      if first.1 ≠ (lastD rest first).1 ∨ first.2 ≠ (lastD rest first).2 then
        first :: rest ++ [first]
      else
        first :: rest

/-- The pre-save hook's geometry derivation (run when shape fields were
modified, which holds on both modelled write paths).  The circle branch
is guarded by `this.type === 'circle' && this.center`, but `center` is a
Mongoose *nested path* (a plain object literal in the schema, not a
subdocument), so `this.center` is always a truthy object: the branch
fires for every circle-typed save and writes
`Point [this.center.lng, this.center.lat]`, which is
`Point [undefined, undefined]` when no center is stored.  Polygon with at
least 3 coordinates and rectangle with at least 2 become a closed
`Polygon` ring; otherwise the geometry is left untouched and no error is
signalled. -/
def preSave (g : Geofence) : Geofence :=
  if g.type = ShapeType.circle then
    { g with geometry := Geometry.point [g.center.map Coord.lng, g.center.map Coord.lat] }
  else if g.type = ShapeType.polygon ∧ 3 ≤ g.coordinates.length then
    { g with geometry := Geometry.polygon [closeRing (toGeoPairs g.coordinates)] }
  else if g.type = ShapeType.rectangle ∧ 2 ≤ g.coordinates.length then
    { g with geometry := Geometry.polygon [closeRing (toGeoPairs g.coordinates)] }
  else g

/-! ### Schema validation and save -/

/-- The schema's per-coordinate validators: `lat` in `[-90, 90]`,
`lng` in `[-180, 180]`. -/
def validCoord (c : Coord) : Bool :=
  decide (-90 ≤ c.lat) && decide (c.lat ≤ 90) &&
    decide (-180 ≤ c.lng) && decide (c.lng ≤ 180)

/-- The schema validators that `save()` runs: `name` required with
`maxlength: 100`, `description` `maxlength: 500`, coordinate and center
ranges, `radius` with `min: 0` (so `0` is a valid stored radius),
`fillOpacity` in `[0, 1]`, `strokeWeight` in `[1, 10]`. -/
def schemaValid (g : Geofence) : Bool :=
  decide (g.name ≠ "") && decide (g.name.length ≤ 100) &&
    (match g.description with
     | some d => decide (d.length ≤ 500)
     | none => true) &&
    g.coordinates.all validCoord &&
    (match g.center with
     | some c => validCoord c
     | none => true) &&
    (match g.radius with
     | some r => decide (0 ≤ r)
     | none => true) &&
    decide (0 ≤ g.fillOpacity) && decide (g.fillOpacity ≤ 1) &&
    decide (1 ≤ g.strokeWeight) && decide (g.strokeWeight ≤ 10)

/-- `geofence.save()`: Mongoose runs schema validation (rejecting the
write with a validation error) and then the pre-save hook. -/
def mongooseSave (g : Geofence) : Except String Geofence :=
  if schemaValid g then Except.ok (preSave g) else Except.error "ValidationError"

/-! ### Route handlers (`routes/geofences.js`) -/

/-- The body of `router.post('/')` (create). -/
structure CreateReq where
  name : Option String := none
  description : Option String := none
  coordinates : Option (List Coord) := none
  type : Option ShapeType := none
  center : Option Coord := none
  radius : Option ℚ := none
  color : Option String := none
  fillColor : Option String := none
  fillOpacity : Option ℚ := none
  strokeWeight : Option ℚ := none
  tags : Option (List String) := none
deriving DecidableEq

/-- JavaScript `s || d` for an optional string. -/
def jsStrOr (o : Option String) (d : String) : String :=
  match o with
  | some s => if s = "" then d else s
  | none => d

/-- JavaScript `n || d` for an optional number. -/
def jsNumOr (o : Option ℚ) (d : ℚ) : ℚ :=
  match o with
  | some n => if n = 0 then d else n
  | none => d

/-- `router.post('/')`: the create handler.  Validates
`!name || !coordinates || coordinates.length === 0`, then
`type === 'polygon' && coordinates.length < 3`, then
`type === 'circle' && (!center || !radius)`, builds the document with
the route defaults and saves it. -/
def createRoute (userId : Nat) (req : CreateReq) : Except String Geofence :=
  if ¬ jsStrTruthy req.name = true ∨ req.coordinates = none ∨
      (req.coordinates.getD []).length = 0 then
    Except.error "Name and coordinates are required"
  else if req.type = some ShapeType.polygon ∧ (req.coordinates.getD []).length < 3 then
    Except.error "Polygon must have at least 3 coordinates"
  else if req.type = some ShapeType.circle ∧
      (req.center = none ∨ ¬ jsNumTruthy req.radius = true) then
    Except.error "Circle type requires center and radius"
  else
    mongooseSave
      { name := req.name.getD ""
        description := req.description
        coordinates := req.coordinates.getD []
        type := req.type.getD ShapeType.polygon
        center := req.center
        radius := req.radius
        color := jsStrOr req.color "#FF0000"
        fillColor := jsStrOr req.fillColor "#FF0000"
        fillOpacity := (req.fillOpacity.getD (3 / 10))
        strokeWeight := jsNumOr req.strokeWeight 2
        tags := req.tags.getD []
        createdBy := userId }

/-- The body of `router.put('/:id')` (update): `none` models a field
absent from the request body (`undefined`). -/
structure UpdateReq where
  name : Option String := none
  description : Option String := none
  coordinates : Option (List Coord) := none
  type : Option ShapeType := none
  center : Option Coord := none
  radius : Option ℚ := none
  color : Option String := none
  fillColor : Option String := none
  fillOpacity : Option ℚ := none
  strokeWeight : Option ℚ := none
  tags : Option (List String) := none
  isActive : Option Bool := none
deriving DecidableEq

/-- The field-by-field `if (x !== undefined) geofence.x = x` block of the
update handler. -/
def applyUpdate (g : Geofence) (req : UpdateReq) : Geofence :=
  { g with
    name := req.name.getD g.name
    description := match req.description with
      | some d => some d
      | none => g.description
    coordinates := req.coordinates.getD g.coordinates
    type := req.type.getD g.type
    center := match req.center with
      | some c => some c
      | none => g.center
    radius := match req.radius with
      | some r => some r
      | none => g.radius
    color := req.color.getD g.color
    fillColor := req.fillColor.getD g.fillColor
    fillOpacity := req.fillOpacity.getD g.fillOpacity
    strokeWeight := req.strokeWeight.getD g.strokeWeight
    tags := req.tags.getD g.tags
    isActive := req.isActive.getD g.isActive }

/-- `router.put('/:id')` on a found geofence `g`: apply the provided
fields and save (no shape validation of its own). -/
def updateRoute (g : Geofence) (req : UpdateReq) : Except String Geofence :=
  mongooseSave (applyUpdate g req)

/-! ### Containment query (`router.post('/check-point')`) -/

open Classical in
/-- `geofences.filter(geofence => geofence.containsPoint(lat, lng))`. -/
noncomputable def findContaining (gs : List Geofence) (lat lng : ℚ) : List Geofence :=
  gs.filter (fun g => decide (containsPoint g lat lng))

/-- The `data` object of the check-point response. -/
structure CheckPointData where
  pointLat : ℚ
  pointLng : ℚ
  isInside : Bool
  geofences : List Geofence
  count : Nat

/-- `router.post('/check-point')` over the caller's active geofences:
rejects the request when `!lat || !lng`, otherwise filters and reports. -/
noncomputable def checkPointRoute (gs : List Geofence) (lat lng : Option ℚ) :
    Except String CheckPointData :=
  if ¬ jsNumTruthy lat = true ∨ ¬ jsNumTruthy lng = true then
    Except.error "Latitude and longitude are required"
  else
    let la := lat.getD 0
    let ln := lng.getD 0
    let containing := findContaining gs la ln
    Except.ok ⟨la, ln, decide (0 < containing.length), containing, containing.length⟩

/-! ### Spec-side definitions

These follow the specification's words, to be compared with the
definitions translated from the source. -/

/-- Modelled from the spec's description of the ray-casting edge set:
"each edge (vᵢ, vⱼ) with j = predecessor index", index 0 wrapping to the
last index — each vertex zipped with its predecessor. -/
def specEdges (coords : List Coord) : List (Coord × Coord) :=
  coords.zip (lastD coords ⟨0, 0⟩ :: coords)

/-- Spec side: the number of edges crossing the horizontal ray from the
query point. -/
def specCrossingCount (lat lng : ℚ) (coords : List Coord) : Nat :=
  (specEdges coords).countP (fun e => edgeCrosses lat lng e.1 e.2)

/-- Spec side: even-odd rule — the point is inside iff the number of
crossings is odd ("each crossing toggles an inside/outside flag"). -/
def rayCastSpec (lat lng : ℚ) (coords : List Coord) : Bool :=
  decide (specCrossingCount lat lng coords % 2 = 1)

/-- Spec side: the haversine great-circle distance exactly as the spec
states it: `a = sin²(Δlat/2) + cos(lat1)·cos(lat2)·sin²(Δlon/2)`,
`d = 2·R·atan2(√a, √(1−a))`, `R = 6371000`, degrees to radians by
`· π/180`. -/
noncomputable def specGreatCircleDistance (lat1 lng1 lat2 lng2 : ℝ) : ℝ :=
  let dLat := (lat2 - lat1) * Real.pi / 180
  let dLng := (lng2 - lng1) * Real.pi / 180
  let a := Real.sin (dLat / 2) ^ 2 +
    Real.cos (lat1 * Real.pi / 180) * Real.cos (lat2 * Real.pi / 180) *
      Real.sin (dLng / 2) ^ 2
  2 * 6371000 * atan2 (Real.sqrt a) (Real.sqrt (1 - a))

/-! ### Concrete inputs used by counterexamples and witnesses -/

/-- The spec's rectangle scenario: corners (10,10), (10,0), (0,0), (0,10). -/
def gRect : Geofence :=
  { name := "rect"
    type := ShapeType.rectangle
    coordinates := [⟨10, 10⟩, ⟨10, 0⟩, ⟨0, 0⟩, ⟨0, 10⟩]
    createdBy := 1 }

/-- The spec's polygon scenario: vertices (0,0), (0,10), (10,10), (10,0). -/
def gPolySquare : Geofence :=
  { name := "square"
    type := ShapeType.polygon
    coordinates := [⟨0, 0⟩, ⟨0, 10⟩, ⟨10, 10⟩, ⟨10, 0⟩]
    createdBy := 1 }

/-- A polygon geofence with only 2 stored vertices. -/
def gPoly2 : Geofence :=
  { name := "degenerate"
    type := ShapeType.polygon
    coordinates := [⟨0, 0⟩, ⟨0, 1⟩]
    createdBy := 1 }

/-- A circle geofence whose stored radius is `0` (persistable: the
schema only requires `radius >= 0`). -/
def gCircleR0 : Geofence :=
  { name := "c0"
    type := ShapeType.circle
    center := some ⟨0, 0⟩
    radius := some 0
    createdBy := 1 }

/-- A circle geofence with radius 1000 centered at the origin. -/
def gCircle1000 : Geofence :=
  { name := "c1000"
    type := ShapeType.circle
    center := some ⟨0, 0⟩
    radius := some 1000
    createdBy := 1 }

/-- A valid stored circle geofence, the shape before an update. -/
def gCircleBase : Geofence :=
  { name := "base"
    type := ShapeType.circle
    center := some ⟨1, 2⟩
    radius := some 1000
    createdBy := 1 }

/-- A create request of kind rectangle with a single coordinate:
structurally insufficient (`< 2` vertices) for the declared kind. -/
def reqRect1 : CreateReq :=
  { name := some "r"
    coordinates := some [⟨0, 0⟩]
    type := some ShapeType.rectangle }

/-- A create request of kind polygon with only 2 coordinates. -/
def reqPoly2 : CreateReq :=
  { name := some "p"
    coordinates := some [⟨0, 0⟩, ⟨0, 1⟩]
    type := some ShapeType.polygon }

/-- A create request of kind circle with radius `0`. -/
def reqCircleR0 : CreateReq :=
  { name := some "c"
    coordinates := some [⟨0, 0⟩]
    type := some ShapeType.circle
    center := some ⟨0, 0⟩
    radius := some 0 }

/-- An update request setting only `radius := 0`. -/
def updRadius0 : UpdateReq := { radius := some 0 }

/-- An update request switching a geofence to kind circle with a radius
but no center: `PUT {type: 'circle', radius: 100}`. -/
def updCircleNoCenter : UpdateReq :=
  { type := some ShapeType.circle
    radius := some 100 }

/-- A circle-typed geofence with no stored center (the state reached by
updating a polygon geofence with `{type: 'circle', radius: 100}`). -/
def gCircleNoCenter : Geofence :=
  { name := "nocenter"
    type := ShapeType.circle
    center := none
    radius := some 100
    createdBy := 1 }

/-- An update request setting only `radius := -5`. -/
def updRadiusNeg : UpdateReq := { radius := some (-5) }

/-! ### Helper lemmas -/

theorem lastD_concat {α : Type} (l : List α) (a d : α) : lastD (l ++ [a]) d = a := by
  induction l generalizing d with
  | nil => rfl
  | cons x xs ih => exact ih x

theorem edgesAux_eq_zip (l : List Coord) : ∀ p, edgesAux p l = l.zip (p :: l) := by
  induction l with
  | nil => intro p; rfl
  | cons x xs ih =>
    intro p
    show (x, p) :: edgesAux x xs = (x :: xs).zip (p :: x :: xs)
    rw [List.zip_cons_cons, ih x]

theorem edgesAux_append_single (l : List Coord) :
    ∀ p a : Coord, edgesAux p (l ++ [a]) = edgesAux p l ++ [(a, lastD l p)] := by
  induction l with
  | nil => intro p a; rfl
  | cons x xs ih =>
    intro p a
    show (x, p) :: edgesAux x (xs ++ [a]) = ((x, p) :: edgesAux x xs) ++ [(a, lastD xs x)]
    rw [ih x a]
    rfl

theorem edgeCrosses_self (lat lng : ℚ) (v : Coord) : edgeCrosses lat lng v v = false := by
  simp [edgeCrosses]

theorem parity_succ (n : Nat) : decide ((n + 1) % 2 = 1) = ! decide (n % 2 = 1) := by
  rcases Nat.mod_two_eq_zero_or_one n with h | h <;> simp [Nat.add_mod, h]

theorem foldl_toggle_parity {α : Type} (p : α → Bool) (l : List α) :
    ∀ b : Bool,
      l.foldl (fun inside e => if p e then !inside else inside) b
        = (b != decide (l.countP p % 2 = 1)) := by
  induction l with
  | nil => intro b; simp
  | cons x xs ih =>
    intro b
    rw [List.foldl_cons, ih, List.countP_cons]
    by_cases h : p x
    · simp only [h, if_true, if_pos, parity_succ]
      cases b <;> cases hd : decide (xs.countP p % 2 = 1) <;> rfl
    · simp [h]

theorem pointInPolygon_eq_parity (lat lng : ℚ) (l : List Coord) :
    pointInPolygon lat lng l
      = decide ((polygonEdges l).countP (fun e => edgeCrosses lat lng e.1 e.2) % 2 = 1) := by
  unfold pointInPolygon
  rw [foldl_toggle_parity]
  cases hd : decide ((polygonEdges l).countP (fun e => edgeCrosses lat lng e.1 e.2) % 2 = 1) <;>
    rfl

theorem polygonEdges_eq_specEdges (l : List Coord) : polygonEdges l = specEdges l := by
  cases l with
  | nil => rfl
  | cons c cs =>
    show edgesAux (lastD cs c) (c :: cs) = (c :: cs).zip (lastD (c :: cs) ⟨0, 0⟩ :: c :: cs)
    rw [edgesAux_eq_zip]
    rfl

theorem pointInPolygon_eq_rayCastSpec (lat lng : ℚ) (l : List Coord) :
    pointInPolygon lat lng l = rayCastSpec lat lng l := by
  rw [pointInPolygon_eq_parity]
  simp only [rayCastSpec, specCrossingCount, polygonEdges_eq_specEdges]

theorem containsPoint_not_of_guards (g : Geofence) (lat lng : ℚ)
    (h1 : ¬ (g.type = ShapeType.circle ∧ g.center.isSome = true ∧ jsNumTruthy g.radius = true))
    (h2 : ¬ (g.type = ShapeType.polygon ∧ 3 ≤ g.coordinates.length)) :
    ¬ containsPoint g lat lng := by
  unfold containsPoint
  rw [if_neg h1, if_neg h2]
  exact not_false

theorem atan2_zero_one : atan2 0 1 = 0 := by
  unfold atan2
  rw [if_pos (by norm_num : (0 : ℝ) < 1)]
  norm_num [Real.arctan_zero]

theorem specGreatCircleDistance_self (lat lng : ℝ) :
    specGreatCircleDistance lat lng lat lng = 0 := by
  unfold specGreatCircleDistance
  simp [sub_self, Real.sin_zero, Real.sqrt_zero, Real.sqrt_one, atan2_zero_one]

theorem calculateDistance_eq_spec (lat1 lng1 lat2 lng2 : ℝ) :
    calculateDistance lat1 lng1 lat2 lng2 = specGreatCircleDistance lat1 lng1 lat2 lng2 := by
  simp only [calculateDistance, specGreatCircleDistance]
  have h : ∀ x c1 c2 y : ℝ,
      Real.sin x * Real.sin x + c1 * c2 * Real.sin y * Real.sin y
        = Real.sin x ^ 2 + c1 * c2 * Real.sin y ^ 2 := fun x c1 c2 y => by ring
  rw [h]
  ring

theorem closeRing_headD_lastD (l : List (ℚ × ℚ)) :
    (closeRing l).headD (0, 0) = lastD (closeRing l) (0, 0) := by
  cases l with
  | nil => rfl
  | cons first rest =>
    simp only [closeRing]
    by_cases h : first.1 ≠ (lastD rest first).1 ∨ first.2 ≠ (lastD rest first).2
    · rw [if_pos h]
      show first = lastD (rest ++ [first]) first
      rw [lastD_concat]
    · rw [if_neg h]
      push_neg at h
      show first = lastD rest first
      exact Prod.ext_iff.mpr ⟨h.1, h.2⟩

theorem closeRing_idem (l : List (ℚ × ℚ)) : closeRing (closeRing l) = closeRing l := by
  cases l with
  | nil => rfl
  | cons first rest =>
    by_cases h : first.1 ≠ (lastD rest first).1 ∨ first.2 ≠ (lastD rest first).2
    · have h1 : closeRing (first :: rest) = first :: (rest ++ [first]) := by
        simp only [closeRing]
        rw [if_pos h]
        rfl
      rw [h1]
      simp only [closeRing]
      rw [if_neg (by rw [lastD_concat]; simp)]
    · have h1 : closeRing (first :: rest) = first :: rest := by
        simp only [closeRing]
        rw [if_neg h]
      rw [h1, h1]

/-! ### Claim theorems -/

/-- C1: the claim that a Rectangle geofence is evaluated by the ray-casting
test fails on the code — `containsPoint` dispatches only on `circle` and
`polygon`, so a rectangle falls through to `false`.  At the spec's own
scenario, the rectangle with corners (10,10), (10,0), (0,0), (0,10) does
not contain (5,5) according to `containsPoint`, although the even-odd
ray-casting test over the same vertex list reports the point inside. -/
theorem C1_rectangle_falls_through :
    ¬ containsPoint gRect 5 5 ∧ pointInPolygon 5 5 gRect.coordinates = true := by
  constructor
  · exact containsPoint_not_of_guards gRect 5 5 (by decide) (by decide)
  · norm_num [pointInPolygon, polygonEdges, edgesAux, lastD, edgeCrosses, gRect]

/-- C2 counterexample: a create request of kind Rectangle with a single
coordinate is structurally insufficient for the declared kind, yet the
create path succeeds with no `ValidationError` and the canonical geometry
stays the default empty `Point`. -/
theorem C2_insufficient_no_error_counterexample :
    (createRoute 1 reqRect1).isOk = true ∧
      (createRoute 1 reqRect1).toOption.map Geofence.geometry = some defaultGeometry := by
  constructor <;>
    (norm_num [createRoute, reqRect1, jsStrTruthy, jsNumTruthy, mongooseSave, schemaValid,
      validCoord, preSave, jsStrOr, jsNumOr]; decide)

/-- C2 amended: on the create route only, a Polygon with fewer than 3
coordinates and a Circle without a truthy center/radius are rejected with
an error.  The pre-save Normalizer itself never signals anything: for a
Polygon with fewer than 3 coordinates or a Rectangle with fewer than 2 it
performs no update, leaving the previous geometry untouched — but for a
circle-typed save without a stored center (since `this.center` is an
always-truthy nested path) it silently overwrites the geometry with the
garbage `Point [undefined, undefined]`, a state reachable by updating a
polygon geofence with `{type: 'circle', radius: 100}`. -/
theorem C2_normalizer_amended :
    (∀ (uid : Nat) (req : CreateReq),
        jsStrTruthy req.name = true →
        req.coordinates ≠ none →
        (req.coordinates.getD []).length ≠ 0 →
        req.type = some ShapeType.polygon →
        (req.coordinates.getD []).length < 3 →
        createRoute uid req = Except.error "Polygon must have at least 3 coordinates") ∧
    (∀ (uid : Nat) (req : CreateReq),
        jsStrTruthy req.name = true →
        req.coordinates ≠ none →
        (req.coordinates.getD []).length ≠ 0 →
        req.type = some ShapeType.circle →
        (req.center = none ∨ jsNumTruthy req.radius = false) →
        createRoute uid req = Except.error "Circle type requires center and radius") ∧
    (∀ g : Geofence,
        g.type ≠ ShapeType.circle →
        ¬ (g.type = ShapeType.polygon ∧ 3 ≤ g.coordinates.length) →
        ¬ (g.type = ShapeType.rectangle ∧ 2 ≤ g.coordinates.length) →
        preSave g = g) ∧
    (∀ g : Geofence,
        g.type = ShapeType.circle → g.center = none →
        preSave g = { g with geometry := Geometry.point [none, none] }) ∧
    (updateRoute gPolySquare updCircleNoCenter).toOption.map Geofence.geometry
      = some (Geometry.point [none, none]) := by
  refine ⟨?_, ?_, ?_, ?_, ?_⟩
  · intro uid req hn hc hl htype hlen
    unfold createRoute
    rw [if_neg (fun hor => by
      rcases hor with h | h | h
      · exact h hn
      · exact hc h
      · exact hl h)]
    rw [if_pos ⟨htype, hlen⟩]
  · intro uid req hn hc hl htype hcr
    unfold createRoute
    rw [if_neg (fun hor => by
      rcases hor with h | h | h
      · exact h hn
      · exact hc h
      · exact hl h)]
    rw [if_neg (fun hpoly => by
      rcases hpoly with ⟨hp, -⟩
      rw [htype] at hp
      simp at hp)]
    rw [if_pos ⟨htype, by
      rcases hcr with h | h
      · exact Or.inl h
      · exact Or.inr (by simp [h])⟩]
  · intro g h1 h2 h3
    unfold preSave
    rw [if_neg h1, if_neg h2, if_neg h3]
  · intro g ht hc
    unfold preSave
    rw [if_pos ht, hc]
    rfl
  · norm_num [updateRoute, applyUpdate, gPolySquare, updCircleNoCenter, mongooseSave,
      schemaValid, validCoord, preSave]
    decide

/-- C2 amended witness: the spec's own scenario 5 — a polygon create with
2 coordinate pairs is rejected at the boundary — and the circle branch
overwrites the geometry of a center-less circle with
`Point [undefined, undefined]`. -/
theorem C2_normalizer_amended_witness :
    createRoute 1 reqPoly2 = Except.error "Polygon must have at least 3 coordinates" ∧
      preSave gCircleNoCenter
        = { gCircleNoCenter with geometry := Geometry.point [none, none] } :=
  ⟨C2_normalizer_amended.1 1 reqPoly2 (by decide) (by decide) (by decide) rfl (by decide),
   C2_normalizer_amended.2.2.2.1 gCircleNoCenter rfl rfl⟩

/-- C3 counterexample: for a Circle geofence with center and radius both
present but radius 0, the point at the center is at haversine distance 0,
which is `≤ radius`, yet `containsPoint` reports `false` because the
JavaScript truthiness guard `this.radius` treats 0 as absent. -/
theorem C3_circle_haversine_counterexample :
    ¬ (containsPoint gCircleR0 0 0 ↔
        specGreatCircleDistance ((0 : ℚ) : ℝ) ((0 : ℚ) : ℝ) ((0 : ℚ) : ℝ) ((0 : ℚ) : ℝ)
          ≤ ((0 : ℚ) : ℝ)) := by
  intro hiff
  have hd : specGreatCircleDistance ((0 : ℚ) : ℝ) ((0 : ℚ) : ℝ) ((0 : ℚ) : ℝ) ((0 : ℚ) : ℝ)
      ≤ ((0 : ℚ) : ℝ) := by
    rw [specGreatCircleDistance_self]
    norm_num
  exact containsPoint_not_of_guards gCircleR0 0 0 (by decide) (by decide) (hiff.mpr hd)

/-- C3 amended: for a Circle geofence with center present and radius
present and nonzero, containment holds iff the haversine great-circle
distance from the point to the center is at most the radius (boundary
inclusive). -/
theorem C3_circle_haversine_amended (g : Geofence) (lat lng : ℚ) (c : Coord) (r : ℚ)
    (ht : g.type = ShapeType.circle) (hc : g.center = some c) (hr : g.radius = some r)
    (hr0 : r ≠ 0) :
    containsPoint g lat lng ↔
      specGreatCircleDistance (lat : ℝ) (lng : ℝ) (c.lat : ℝ) (c.lng : ℝ) ≤ (r : ℝ) := by
  unfold containsPoint
  rw [if_pos ⟨ht, by rw [hc]; rfl, by rw [hr]; simp [jsNumTruthy, hr0]⟩]
  unfold circleCond
  rw [hc, hr]
  show calculateDistance (lat : ℝ) (lng : ℝ) (c.lat : ℝ) (c.lng : ℝ) ≤ (r : ℝ) ↔ _
  rw [calculateDistance_eq_spec]

/-- C3 amended witness: the center of a 1000 m circle is contained. -/
theorem C3_circle_haversine_amended_witness : containsPoint gCircle1000 0 0 :=
  (C3_circle_haversine_amended gCircle1000 0 0 ⟨0, 0⟩ 1000 rfl rfl rfl (by norm_num)).mpr
    (by
      show specGreatCircleDistance ((0 : ℚ) : ℝ) ((0 : ℚ) : ℝ) ((0 : ℚ) : ℝ) ((0 : ℚ) : ℝ)
        ≤ ((1000 : ℚ) : ℝ)
      rw [specGreatCircleDistance_self]
      norm_num)

/-- C4: for a Polygon geofence with at least 3 vertices, `containsPoint`
equals the even-odd ray-casting result: each vertex paired with its
predecessor (index 0 wrapping to the last index), crossings counted by
the strict comparisons, parity decides membership. -/
theorem C4_polygon_raycast (g : Geofence) (lat lng : ℚ)
    (ht : g.type = ShapeType.polygon) (hlen : 3 ≤ g.coordinates.length) :
    containsPoint g lat lng ↔ rayCastSpec lat lng g.coordinates = true := by
  unfold containsPoint
  rw [if_neg (fun hcirc => by
    rcases hcirc with ⟨hcty, -⟩
    rw [ht] at hcty
    exact ShapeType.noConfusion hcty)]
  rw [if_pos ⟨ht, hlen⟩, pointInPolygon_eq_rayCastSpec]

/-- C4 witness: the spec's polygon scenario — (5,5) is inside the square
with vertices (0,0), (0,10), (10,10), (10,0). -/
theorem C4_polygon_raycast_witness :
    containsPoint gPolySquare 5 5 ∧ rayCastSpec 5 5 gPolySquare.coordinates = true := by
  have hray : rayCastSpec 5 5 gPolySquare.coordinates = true := by
    norm_num [rayCastSpec, specCrossingCount, specEdges, lastD, edgeCrosses, gPolySquare,
      List.countP, List.countP.go]
  exact ⟨(C4_polygon_raycast gPolySquare 5 5 rfl (by decide)).mpr hray, hray⟩

/-- C5: `containsPoint` is a total function (no branch can throw) and
malformed shape data — a polygon with fewer than 3 vertices, a circle
missing its center or radius, or the rectangle kind, which no branch
recognizes — yields `false`. -/
theorem C5_malformed_contains_false (g : Geofence) (lat lng : ℚ)
    (h : (g.type = ShapeType.polygon ∧ g.coordinates.length < 3) ∨
         (g.type = ShapeType.circle ∧ (g.center = none ∨ g.radius = none)) ∨
         g.type = ShapeType.rectangle) :
    ¬ containsPoint g lat lng := by
  apply containsPoint_not_of_guards
  · rcases h with ⟨ht, -⟩ | ⟨-, hcr⟩ | ht
    · rintro ⟨hcty, -⟩
      rw [ht] at hcty
      exact ShapeType.noConfusion hcty
    · rintro ⟨-, hs, hr⟩
      rcases hcr with hc | hc
      · rw [hc] at hs
        simp at hs
      · rw [hc] at hr
        simp [jsNumTruthy] at hr
    · rintro ⟨hcty, -⟩
      rw [ht] at hcty
      exact ShapeType.noConfusion hcty
  · rcases h with ⟨-, hlen⟩ | ⟨ht, -⟩ | ht
    · rintro ⟨-, h3⟩
      omega
    · rintro ⟨hpty, -⟩
      rw [ht] at hpty
      exact ShapeType.noConfusion hpty
    · rintro ⟨hpty, -⟩
      rw [ht] at hpty
      exact ShapeType.noConfusion hpty

/-- C5 witness: a polygon geofence with 2 vertices does not contain
(3,4), without any error. -/
theorem C5_malformed_contains_false_witness : ¬ containsPoint gPoly2 3 4 :=
  C5_malformed_contains_false gPoly2 3 4 (Or.inl ⟨rfl, by decide⟩)

/-- C6: `findContaining` returns exactly the order-preserving subsequence
of the input geofences that contain the point, and the empty list (never
an error) when none match. -/
theorem C6_findContaining_filter (gs : List Geofence) (lat lng : ℚ) :
    List.Sublist (findContaining gs lat lng) gs ∧
    (∀ g : Geofence, g ∈ findContaining gs lat lng ↔ g ∈ gs ∧ containsPoint g lat lng) ∧
    ((∀ g ∈ gs, ¬ containsPoint g lat lng) → findContaining gs lat lng = []) := by
  refine ⟨List.filter_sublist _, ?_, ?_⟩
  · intro g
    simp [findContaining]
  · intro h
    simp only [findContaining, List.filter_eq_nil_iff]
    intro g hg
    simp [h g hg]

/-- C6 witness: no match yields the empty list. -/
theorem C6_findContaining_filter_witness : findContaining [gRect] 5 5 = [] :=
  (C6_findContaining_filter [gRect] 5 5).2.2 (by
    intro g hg
    rw [List.mem_singleton] at hg
    subst hg
    exact containsPoint_not_of_guards gRect 5 5 (by decide) (by decide))

/-- C7: one pass of the normalizer's ring-closing procedure yields a ring
whose first and last pairs are equal, and a second pass returns the ring
unchanged, whether or not the input was pre-closed. -/
theorem C7_closeRing_idempotent (coords : List Coord) (h : 3 ≤ coords.length) :
    (closeRing (toGeoPairs coords)).headD (0, 0)
        = lastD (closeRing (toGeoPairs coords)) (0, 0) ∧
      closeRing (closeRing (toGeoPairs coords)) = closeRing (toGeoPairs coords) :=
  ⟨closeRing_headD_lastD _, closeRing_idem _⟩

/-- C7 witness: the square's vertex list closes to a ring with equal
first and last pairs, idempotently. -/
theorem C7_closeRing_idempotent_witness :
    (closeRing (toGeoPairs gPolySquare.coordinates)).headD (0, 0)
        = lastD (closeRing (toGeoPairs gPolySquare.coordinates)) (0, 0) ∧
      closeRing (closeRing (toGeoPairs gPolySquare.coordinates))
        = closeRing (toGeoPairs gPolySquare.coordinates) :=
  C7_closeRing_idempotent gPolySquare.coordinates (by decide)

/-- C8: the ray-casting test is insensitive to explicit ring closure —
appending a copy of the first vertex leaves the result unchanged. -/
theorem C8_pointInPolygon_closure_insensitive (c : Coord) (cs : List Coord) (lat lng : ℚ)
    (h : 3 ≤ (c :: cs).length) :
    pointInPolygon lat lng ((c :: cs) ++ [c]) = pointInPolygon lat lng (c :: cs) := by
  rw [pointInPolygon_eq_parity, pointInPolygon_eq_parity]
  have hnew : polygonEdges ((c :: cs) ++ [c])
      = (c, c) :: (edgesAux c cs ++ [(c, lastD cs c)]) := by
    show edgesAux (lastD (cs ++ [c]) c) (c :: (cs ++ [c])) = _
    rw [lastD_concat]
    show (c, c) :: edgesAux c (cs ++ [c]) = _
    rw [edgesAux_append_single]
  have hold : polygonEdges (c :: cs) = (c, lastD cs c) :: edgesAux c cs := rfl
  rw [hnew, hold]
  simp [List.countP_cons, List.countP_append, edgeCrosses_self]

/-- C8 witness: closing the square explicitly does not change the
containment of (5,5). -/
theorem C8_pointInPolygon_closure_insensitive_witness :
    pointInPolygon 5 5 ((⟨0, 0⟩ :: [⟨0, 10⟩, ⟨10, 10⟩, ⟨10, 0⟩]) ++ [⟨0, 0⟩])
      = pointInPolygon 5 5 (⟨0, 0⟩ :: [⟨0, 10⟩, ⟨10, 10⟩, ⟨10, 0⟩]) :=
  C8_pointInPolygon_closure_insensitive ⟨0, 0⟩ [⟨0, 10⟩, ⟨10, 10⟩, ⟨10, 0⟩] 5 5 (by decide)

/-- C9 counterexample: updating a valid circle geofence with radius 0 is
accepted (the schema only requires `radius >= 0`), so a persisted Circle
with radius 0 is reachable through the update path. -/
theorem C9_radius_zero_counterexample :
    (updateRoute gCircleBase updRadius0).isOk = true ∧
      (updateRoute gCircleBase updRadius0).toOption.map (fun g => (g.type, g.radius))
        = some (ShapeType.circle, some 0) := by
  constructor <;>
    (norm_num [updateRoute, applyUpdate, gCircleBase, updRadius0, mongooseSave, schemaValid,
      validCoord, preSave]; decide)

/-- C9 amended: radius 0 is rejected on the create route (by the
truthiness check `!radius`), a negative radius is rejected by schema
validation on update, but radius 0 is accepted on update, so a persisted
Circle with radius 0 (though never a negative one) is reachable. -/
theorem C9_radius_validation_amended :
    (∀ (uid : Nat) (req : CreateReq),
        req.type = some ShapeType.circle → req.radius = some 0 →
        ∃ msg, createRoute uid req = Except.error msg) ∧
    (∀ (g : Geofence) (req : UpdateReq) (r : ℚ),
        req.radius = some r → r < 0 →
        updateRoute g req = Except.error "ValidationError") ∧
    (updateRoute gCircleBase updRadius0).isOk = true := by
  refine ⟨?_, ?_, ?_⟩
  · intro uid req ht hr
    unfold createRoute
    by_cases h1 : ¬ jsStrTruthy req.name = true ∨ req.coordinates = none ∨
        (req.coordinates.getD []).length = 0
    · exact ⟨_, by rw [if_pos h1]⟩
    · rw [if_neg h1]
      by_cases h2 : req.type = some ShapeType.polygon ∧ (req.coordinates.getD []).length < 3
      · exact ⟨_, by rw [if_pos h2]⟩
      · rw [if_neg h2]
        exact ⟨_, by rw [if_pos ⟨ht, Or.inr (by rw [hr]; simp [jsNumTruthy])⟩]⟩
  · intro g req r hr hneg
    have hval : schemaValid (applyUpdate g req) = false := by
      have hrad : (applyUpdate g req).radius = some r := by
        simp [applyUpdate, hr]
      unfold schemaValid
      rw [hrad]
      have hnle : ¬ (0 ≤ r) := not_le.mpr hneg
      simp [hnle]
    unfold updateRoute mongooseSave
    rw [hval]
    simp
  · norm_num [updateRoute, applyUpdate, gCircleBase, updRadius0, mongooseSave, schemaValid,
      validCoord, preSave]
    decide

/-- C9 amended witness: radius 0 errors on create; radius -5 errors on
update with a validation error. -/
theorem C9_radius_validation_amended_witness :
    (∃ msg, createRoute 1 reqCircleR0 = Except.error msg) ∧
      updateRoute gCircleBase updRadiusNeg = Except.error "ValidationError" :=
  ⟨C9_radius_validation_amended.1 1 reqCircleR0 rfl rfl,
   C9_radius_validation_amended.2.1 gCircleBase updRadiusNeg (-5) rfl (by norm_num)⟩

/-- C10: the check-point route treats `lat` or `lng` equal to 0 (or
absent) as missing, rejects the request with "Latitude and longitude are
required", and performs no containment evaluation. -/
theorem C10_checkPoint_zero_rejected (gs : List Geofence) (lat lng : Option ℚ)
    (h : lat = none ∨ lat = some 0 ∨ lng = none ∨ lng = some 0) :
    checkPointRoute gs lat lng = Except.error "Latitude and longitude are required" := by
  have hcond : ¬ jsNumTruthy lat = true ∨ ¬ jsNumTruthy lng = true := by
    rcases h with h | h | h | h <;> subst h <;> simp [jsNumTruthy]
  unfold checkPointRoute
  rw [if_pos hcond]

/-- C10 witness: an equator point (lat = 0) is rejected. -/
theorem C10_checkPoint_zero_rejected_witness :
    checkPointRoute [] (some 0) (some 50) = Except.error "Latitude and longitude are required" :=
  C10_checkPoint_zero_rejected [] (some 0) (some 50) (Or.inr (Or.inl rfl))

end GeoFence
